import Mathlib

/-!
Shallow embedding of `src/server.py` (the gesture-detection inference server)
and proofs about its request/response contract and model-loading heuristic.

The server is a FastAPI app with three routes (`/health`, `/model_info`,
`/predict`) and a loader `load_model` that runs at startup.  The embedding
models the process-wide globals (`MODEL`, `LAST_LOAD_ERROR`,
`MODEL_PATH_TRIED`) as an explicit `ServerState` threaded through each
handler, the filesystem and deserializers as a `World` record of pure
functions, and the duck-typed scikit-learn model object as a `ModelHandle`
record of pure fallible functions.  Library calls made by the source
(`pd.DataFrame`, `probs.max(axis=1)`, Python `float()`, `os.path.join`)
are modelled by executable Lean functions whose doc comments state which
library behavior they capture.
-/

namespace GestureServer

/-- A JSON value as parsed from a request body (also reused for the scalar
cells that flow through the DataFrame and the probability matrix). -/
inductive Json where
  | num (q : ℚ)
  | str (s : String)
  | bool (b : Bool)
  | null
  | arr (elems : List Json)
  | obj (fields : List (String × Json))
deriving Repr

/-- Is this JSON value an object (a Python `dict`)? -/
def Json.isObj : Json → Bool
  | .obj _ => true
  | _ => false

/-- Is this JSON value an array (a Python `list`)? -/
def Json.isArr : Json → Bool
  | .arr _ => true
  | _ => false

/-- A prediction scalar as returned by `MODEL.predict`: either a native
Python value or a numpy scalar (`np.integer` / `np.floating`), which the
handler converts with `.item()` (src/server.py lines 118-119). -/
inductive PredVal where
  | py (v : Json)
  | npInt (n : ℤ)
  | npFloat (q : ℚ)
deriving Repr

/-- Models the `.item()` conversion of a numpy scalar to a native value; the identity
on values that are already native (src/server.py lines 118-119). -/
def PredVal.item : PredVal → Json
  | .py v => v
  | .npInt n => .num n
  | .npFloat q => .num q

/-- The pandas DataFrame assembled from the request rows: column labels
plus row-major cell data. -/
structure Table where
  cols : List String
  data : List (List Json)
deriving Repr

/-- Models `df.values`: the raw cell data with the column labels dropped
(src/server.py line 100). -/
def Table.values (t : Table) : List (List Json) := t.data

/-- The argument passed to a model method: either the labeled DataFrame
`df` or the label-free `df.values` array.  The distinction lets a model's
behavior depend on which representation it receives, as scikit-learn
models trained with or without feature names do. -/
inductive TableInput where
  | labeled (t : Table)
  | raw (v : List (List Json))

/-- The deserialized model object: a required `predict` capability, a
`hasProba` flag modelling `hasattr(MODEL, 'predict_proba')`, and the
`predict_proba` capability (consulted only when `hasProba` is true).
Each call either returns a value or raises (modelled as `Except`). -/
structure ModelHandle where
  predict : TableInput → Except String (List PredVal)
  hasProba : Bool
  predict_proba : TableInput → Except String (List (List Json))

/-- The environment the loader runs against: `os.path.exists`,
`os.listdir` of the server's own directory, `os.path.dirname(__file__) or
"."`, whether the `joblib` import succeeded, and the outcome of
deserializing a given path with `joblib.load` or `pickle.load`. -/
structure World where
  dirname : String
  pathExists : String → Bool
  listdir : List String
  joblibAvailable : Bool
  joblibLoad : String → Except String ModelHandle
  pickleLoad : String → Except String ModelHandle

/-- The process-wide globals of src/server.py lines 25-28. -/
structure ServerState where
  MODEL : Option ModelHandle
  LAST_LOAD_ERROR : Option String
  MODEL_PATH_TRIED : Option String

/-- The globals' initial values (src/server.py lines 25-28): no model, no
error, no attempted path. -/
def initState : ServerState := ⟨none, none, none⟩

/-- Models `os.path.join(a, b)` for a non-empty directory `a`. -/
def pjoin (a b : String) : String := a ++ "/" ++ b

/-- The default artifact path `os.path.join(dirname, "gesture_detection.pkl")`
(src/server.py line 26). -/
def MODEL_PATH (w : World) : String := pjoin w.dirname "gesture_detection.pkl"

/-- Executable model of Python's `str.endswith` on the character list
(equivalent to `String.endsWith`, but written so the kernel can evaluate
concrete instances). -/
def strEndsWith (s p : String) : Bool :=
  s.data.drop (s.data.length - p.data.length) == p.data

/-- The extension test used both by the fallback scan (line 40) and by the
deserializer choice (line 51): the name ends in `.pkl`, `.joblib` or `.sav`. -/
def isModelExt (f : String) : Bool :=
  strEndsWith f ".pkl" || strEndsWith f ".joblib" || strEndsWith f ".sav"

/-- Path resolution of `load_model` (src/server.py lines 34-42): default
to `MODEL_PATH` when no argument is given; if the path does not exist,
scan the server's directory and take the first name with a model
extension, joined to the directory; otherwise keep the path as is. -/
def resolvePath (w : World) (pathArg : Option String) : String :=
  let path0 := pathArg.getD (MODEL_PATH w)
  if !w.pathExists path0 then
    match w.listdir.find? isModelExt with
    | some f => pjoin w.dirname f
    | none => path0
  else path0

/-- Deserializer choice of `load_model` (src/server.py lines 50-55):
`joblib.load` when joblib imported and the extension is recognized,
otherwise `pickle.load`. -/
def deserialize (w : World) (path : String) : Except String ModelHandle :=
  if w.joblibAvailable && isModelExt path then w.joblibLoad path
  else w.pickleLoad path

/-- Embedding of `load_model` (src/server.py lines 31-61).  Takes the
optional explicit path argument and the current global state; returns the
updated state together with the function's return value.  Note the
success branch (lines 50-56) assigns `MODEL` only: `LAST_LOAD_ERROR` is
untouched there. -/
def load_model (w : World) (pathArg : Option String) (st : ServerState) :
    ServerState × Option ModelHandle :=
  let path := resolvePath w pathArg
  let st1 : ServerState := { st with MODEL_PATH_TRIED := some path }
  if !w.pathExists path then
    ({ st1 with MODEL := none,
                LAST_LOAD_ERROR := some ("Model file not found: " ++ path) }, none)
  else
    match deserialize w path with
    | .ok m => ({ st1 with MODEL := some m }, some m)
    | .error ex => ({ st1 with MODEL := none, LAST_LOAD_ERROR := some ex }, none)

/-- Response shape of `GET /model_info` (src/server.py lines 64-71). -/
structure ModelInfoResponse where
  model_loaded : Bool
  model_path_tried : Option String
  last_load_error : Option String

/-- Embedding of the `/model_info` handler (src/server.py lines 64-71).
Returns the response together with the (unchanged) global state. -/
def model_info (st : ServerState) : ModelInfoResponse × ServerState :=
  (⟨st.MODEL.isSome, st.MODEL_PATH_TRIED, st.LAST_LOAD_ERROR⟩, st)

/-- Response shape of `GET /health` (src/server.py lines 79-81). -/
structure HealthResponse where
  status : String
  model_loaded : Bool

/-- Embedding of the `/health` handler (src/server.py lines 79-81). -/
def health (st : ServerState) : HealthResponse × ServerState :=
  (⟨"ok", st.MODEL.isSome⟩, st)

/-- First-appearance-order union of the keys of the row objects: models
the column index pandas builds from a list of dicts. -/
def unionKeys (rows : List Json) : List String :=
  rows.foldl
    (fun acc r =>
      match r with
      | .obj fs => fs.foldl (fun a p => if p.1 ∈ a then a else a ++ [p.1]) acc
      | _ => acc)
    []

/-- Field lookup in a row object; a missing key becomes `null`, standing
for the `NaN` pandas fills in. -/
def objGet (r : Json) (k : String) : Json :=
  match r with
  | .obj fs => ((fs.find? (fun p => p.1 == k)).map Prod.snd).getD .null
  | _ => .null

/-- Right-pads a list row to width `w` with `null` (pandas fills `NaN`). -/
def padRow (r : List Json) (w : Nat) : List Json :=
  r ++ List.replicate (w - r.length) .null

/-- Models `pd.DataFrame(rows)` on a list (src/server.py line 92): a list
of dicts forms columns from the union of keys in first-appearance order
with missing cells as NaN; a list of scalars forms a single column `0`;
a list of lists forms positional columns padded with NaN; a list mixing
dicts with non-dicts raises. -/
def pdDataFrame (rows : List Json) : Except String Table :=
  if rows.all Json.isObj then
    let cols := unionKeys rows
    .ok ⟨cols, rows.map (fun r => cols.map (objGet r))⟩
  else if rows.all (fun r => !r.isObj && !r.isArr) then
    .ok ⟨["0"], rows.map (fun r => [r])⟩
  else if rows.all Json.isArr then
    let lens := rows.map (fun r => match r with | .arr l => l.length | _ => 0)
    let w := lens.foldl max 0
    .ok ⟨(List.range w).map toString,
         rows.map (fun r => match r with | .arr l => padRow l w | _ => [])⟩
  else .error "cannot mix dict rows with non-dict rows"

/-- Numeric view used by Python comparisons: numbers are themselves,
booleans count as 0/1; everything else is not a number. -/
def pyNum? : Json → Option ℚ
  | .num q => some q
  | .bool b => some (if b then 1 else 0)
  | _ => none

/-- One comparison step of `probs.max(axis=1)` on an object array: numpy
reduces each row with Python's ordering, which compares numbers (and
booleans) with numbers and strings with strings, and raises a `TypeError`
on any other pair.  The larger operand is returned unchanged; ties keep
the earlier operand. -/
def pyMax2 (a b : Json) : Except String Json :=
  match pyNum? a, pyNum? b with
  | some x, some y => .ok (if x ≥ y then a else b)
  | _, _ =>
    match a, b with
    | .str s, .str t => .ok (if t ≤ s then a else b)
    | _, _ => .error "unorderable types"

/-- Row reduction of `probs.max(axis=1)`: a single-element row is returned
without any comparison; an empty row raises (numpy: zero-size reduction). -/
def rowMax : List Json → Except String Json
  | [] => .error "zero-size array to reduction operation maximum"
  | x :: xs => xs.foldlM pyMax2 x

/-- Models `probs.max(axis=1).tolist()` (src/server.py lines 109-111); the
`isinstance(probs, list)`/`np.array` normalization is the identity here
because list matrices and ndarrays share the one representation
`List (List Json)`. -/
def maxAxis1 (probs : List (List Json)) : Except String (List Json) :=
  probs.mapM rowMax

/-- Decimal-string parsing behind Python's `float()` on simple literals:
an optional sign, an integer part and an optional fractional part (exotic
forms such as `inf`, `nan` or surrounding whitespace are not modelled; no
claim depends on them). -/
def parseDecimal (s : String) : Option ℚ :=
  let (sign, t) : ℚ × String :=
    if s.startsWith "-" then (-1, s.drop 1)
    else if s.startsWith "+" then (1, s.drop 1) else (1, s)
  match t.splitOn "." with
  | [a] => (a.toNat?).map (fun n => sign * n)
  | [a, b] =>
    if a.isEmpty && b.isEmpty then none
    else
      match (if a.isEmpty then some 0 else a.toNat?),
            (if b.isEmpty then some 0 else b.toNat?) with
      | some n, some m => some (sign * ((n : ℚ) + (m : ℚ) / (10 ^ b.length)))
      | _, _ => none
  | _ => none

/-- Models Python `float(x)` (src/server.py line 123): numbers and
booleans coerce, numeric strings parse, and `None`, other strings, lists
and dicts raise (`none`). -/
def pyFloat : Json → Option ℚ
  | .num q => some q
  | .bool b => some (if b then 1 else 0)
  | .str s => parseDecimal s
  | _ => none

/-- The `confidence` field of a response entry: absent from the JSON
object, present as an explicit `null`, or a plain float. -/
inductive ConfField where
  | absent
  | null
  | val (q : ℚ)
deriving Repr, DecidableEq

/-- One element of the `/predict` response array (src/server.py lines
115-126). -/
structure Entry where
  prediction : Json
  confidence : ConfField
deriving Repr

/-- The `HTTPException`s raised by the handler: a status code and detail. -/
structure HttpError where
  status : Nat
  detail : String
deriving Repr, DecidableEq

/-- The confidence list of src/server.py lines 105-113: `none` when the
model lacks `predict_proba` or when anything inside the `try` block
(the `predict_proba` call or the row-max reduction) raises; note the
probability call is made on the labeled DataFrame `df` (line 108). -/
def computeConfidences (M : ModelHandle) (df : Table) : Option (List Json) :=
  if M.hasProba then
    match M.predict_proba (.labeled df) with
    | .ok probs =>
      match maxAxis1 probs with
      | .ok cs => some cs
      | .error _ => none
    | .error _ => none
  else none

/-- The loop body of src/server.py lines 116-126 for index `i` and
prediction `p`: numpy scalars become native values, and when confidences
were computed the field is `float(confidences[i])`, with any failure
(index out of range, or a value `float()` rejects) caught and turned into
an explicit `null`. -/
def mkEntry (confidences : Option (List Json)) (i : Nat) (p : PredVal) : Entry :=
  { prediction := p.item
    confidence :=
      match confidences with
      | none => .absent
      | some cs =>
        match cs.get? i with
        | none => .null
        | some c =>
          match pyFloat c with
          | some q => .val q
          | none => .null }

/-- The `for i, p in enumerate(preds)` loop of src/server.py lines
115-126, with the running index made explicit. -/
def buildEntries (confidences : Option (List Json)) : Nat → List PredVal → List Entry
  | _, [] => []
  | i, p :: ps => mkEntry confidences i p :: buildEntries confidences (i + 1) ps

/-- The dual-attempt prediction of src/server.py lines 96-103: `predict`
on the labeled DataFrame, retried once on `df.values`; when both raise,
both error messages are reported. -/
def runPredict (M : ModelHandle) (df : Table) : Except (String × String) (List PredVal) :=
  match M.predict (.labeled df) with
  | .ok preds => .ok preds
  | .error e1 =>
    match M.predict (.raw df.values) with
    | .ok preds => .ok preds
    | .error e2 => .error (e1, e2)

/-- The body of the `/predict` handler after the model and shape checks
(src/server.py lines 91-127). -/
def predictBody (M : ModelHandle) (rows : List Json) : Except HttpError (List Entry) :=
  match pdDataFrame rows with
  | .error ex => .error ⟨400, "Failed to parse input rows into DataFrame: " ++ ex⟩
  | .ok df =>
    match runPredict M df with
    | .error (e1, e2) =>
      .error ⟨500, "Model prediction failed: " ++ e1 ++ "; " ++ e2⟩
    | .ok preds => .ok (buildEntries (computeConfidences M df) 0 preds)

/-- Embedding of the `/predict` handler body (src/server.py lines 84-127)
as applied to the value bound to `rows`: the model-loaded check comes
first (line 86), then the handler's own `isinstance(rows, list) or
len(rows) == 0` shape check (line 88), then DataFrame assembly,
prediction with one value-only retry, best-effort confidences, and entry
construction.  Returns the response together with the (unchanged) global
state.  In the running server this body executes only after the
framework's request validation (see `validateRows` and `predictRoute`
below), which is why the `isinstance` branch is unreachable there. -/
def predict (st : ServerState) (body : Json) : Except HttpError (List Entry) × ServerState :=
  (match st.MODEL with
   | none => .error ⟨503, "Model not loaded"⟩
   | some M =>
     match body with
     | .arr rows =>
       if rows.length = 0 then
         .error ⟨400, "Request body must be a non-empty JSON array of objects"⟩
       else predictBody M rows
     | _ => .error ⟨400, "Request body must be a non-empty JSON array of objects"⟩,
   st)

/-- Models FastAPI/Pydantic validation of the parameter annotation
`rows: List[Dict[str, Any]]` (src/server.py line 85): the request body
must be a JSON array whose every element is a JSON object, otherwise the
framework rejects the request with a 422 Unprocessable Entity response
before the handler body runs.  The framework's structured error document
is abstracted to a fixed detail string. -/
def validateRows : Json → Except HttpError (List Json)
  | .arr l =>
    if l.all Json.isObj then .ok l
    else .error ⟨422, "request validation failed"⟩
  | _ => .error ⟨422, "request validation failed"⟩

/-- The full `POST /predict` route: framework validation of the body
against `List[Dict[str, Any]]` first, then the handler body `predict`
(src/server.py lines 84-127). -/
def predictRoute (st : ServerState) (body : Json) :
    Except HttpError (List Entry) × ServerState :=
  match validateRows body with
  | .error e => (.error e, st)
  | .ok rows => predict st (.arr rows)

/-! ## Helper lemmas and concrete model handles used by witnesses -/

/-- The enumeration loop produces one entry per prediction. -/
theorem buildEntries_length (cs : Option (List Json)) :
    ∀ (i : Nat) (ps : List PredVal), (buildEntries cs i ps).length = ps.length := by
  intro i ps
  induction ps generalizing i with
  | nil => rfl
  | cons p ps ih => simp [buildEntries, ih]

/-- Indexing the enumeration loop's output: entry `j` is the loop body
applied to index `i + j` and prediction `j`. -/
theorem buildEntries_get? (cs : Option (List Json)) :
    ∀ (ps : List PredVal) (i j : Nat),
      (buildEntries cs i ps).get? j = (ps.get? j).map (fun p => mkEntry cs (i + j) p) := by
  intro ps
  induction ps with
  | nil => intro i j; simp [buildEntries]
  | cons p ps ih =>
    intro i j
    cases j with
    | zero => simp [buildEntries]
    | succ j =>
      have h : i + 1 + j = i + (j + 1) := by omega
      show (buildEntries cs (i + 1) ps).get? j = _
      rw [ih (i + 1) j, h]
      rfl

/-- Finding the first match equals taking the head of the filtered list. -/
theorem find?_eq_filter_head? {α : Type} (p : α → Bool) (l : List α) :
    l.find? p = (l.filter p).head? := by
  induction l with
  | nil => rfl
  | cons x xs ih =>
    rw [List.find?_cons, List.filter_cons]
    cases hx : p x
    · simp only [hx, if_false]
      exact ih
    · simp only [hx, if_true]
      rfl

/-- A stub model used in witnesses: predicts the label `0` for any input
and exposes no probability capability. -/
def constHandle : ModelHandle where
  predict := fun _ => .ok [.py (.num 0)]
  hasProba := false
  predict_proba := fun _ => .error "AttributeError"

/-! ## Claims -/

/-- C9: the process-wide state is written only by the loader: every call
to `/predict` (whatever it returns), `/model_info` or `/health` leaves the
three globals exactly as they were. -/
theorem c9_handlers_preserve_state (st : ServerState) (body : Json) :
    (predict st body).snd = st ∧ (model_info st).snd = st ∧ (health st).snd = st :=
  ⟨rfl, rfl, rfl⟩

/-- C4: when both the direct predict and the value-only retry raise, the
request fails with a 500 whose message contains the first attempt's error
followed by the retry's, and the global state is untouched, so the process
keeps serving subsequent requests. -/
theorem c4_double_failure_500 (st : ServerState) (M : ModelHandle)
    (rows : List Json) (df : Table) (e1 e2 : String)
    (hM : st.MODEL = some M) (hne : rows ≠ [])
    (hdf : pdDataFrame rows = .ok df)
    (h1 : M.predict (.labeled df) = .error e1)
    (h2 : M.predict (.raw df.values) = .error e2) :
    (predict st (.arr rows)).fst
      = .error ⟨500, "Model prediction failed: " ++ e1 ++ "; " ++ e2⟩
    ∧ (predict st (.arr rows)).snd = st := by
  have hlen : ¬ rows.length = 0 := by simpa [List.length_eq_zero] using hne
  refine ⟨?_, rfl⟩
  simp only [predict, hM]
  rw [if_neg hlen]
  simp only [predictBody, hdf, runPredict, h1, h2]

/-- A stub model whose predict raises on either representation, with
distinct messages. -/
def failHandle : ModelHandle where
  predict := fun t =>
    match t with
    | .labeled _ => .error "E1"
    | .raw _ => .error "E2"
  hasProba := false
  predict_proba := fun _ => .error "AttributeError"

/-- Witness for C4 at a concrete state, model and request. -/
theorem c4_witness :
    (predict ⟨some failHandle, none, none⟩ (.arr [.obj [("a", .num 1)]])).fst
      = .error ⟨500, "Model prediction failed: " ++ "E1" ++ "; " ++ "E2"⟩
    ∧ (predict ⟨some failHandle, none, none⟩ (.arr [.obj [("a", .num 1)]])).snd
      = ⟨some failHandle, none, none⟩ :=
  c4_double_failure_500 ⟨some failHandle, none, none⟩ failHandle
    [.obj [("a", .num 1)]] ⟨["a"], [[.num 1]]⟩ "E1" "E2"
    rfl (List.cons_ne_nil _ _) rfl rfl rfl

/-- C1: when the model is loaded, the rows assemble into a table, the
prediction (direct or via the value-only retry) succeeds and returns one
label per input row, the response has exactly one entry per input row and
entry `i`'s prediction is built from prediction `i`. -/
theorem c1_predict_output_matches_rows (st : ServerState) (M : ModelHandle)
    (rows : List Json) (df : Table) (preds : List PredVal)
    (hM : st.MODEL = some M) (hne : rows ≠ [])
    (hdf : pdDataFrame rows = .ok df)
    (hpred : runPredict M df = .ok preds)
    (hlen : preds.length = rows.length) :
    ∃ out, (predict st (.arr rows)).fst = .ok out ∧ out.length = rows.length ∧
      ∀ i, (out.get? i).map Entry.prediction = (preds.get? i).map PredVal.item := by
  have hlen0 : ¬ rows.length = 0 := by simpa [List.length_eq_zero] using hne
  refine ⟨buildEntries (computeConfidences M df) 0 preds, ?_, ?_, ?_⟩
  · simp only [predict, hM]
    rw [if_neg hlen0]
    simp only [predictBody, hdf, hpred]
  · rw [buildEntries_length]; exact hlen
  · intro i
    rw [buildEntries_get?]
    cases preds.get? i <;> simp [mkEntry]

/-- Witness for C1 at a concrete state, model and one-row request. -/
theorem c1_witness :
    ∃ out, (predict ⟨some constHandle, none, none⟩ (.arr [.obj [("a", .num 1)]])).fst
        = .ok out
      ∧ out.length = 1
      ∧ ∀ i, (out.get? i).map Entry.prediction
          = ([PredVal.py (.num 0)].get? i).map PredVal.item :=
  c1_predict_output_matches_rows ⟨some constHandle, none, none⟩ constHandle
    [.obj [("a", .num 1)]] ⟨["a"], [[.num 1]]⟩ [.py (.num 0)]
    rfl (List.cons_ne_nil _ _) rfl rfl rfl

/-- With no model handle, `/predict` answers 503 before looking at the
body at all. -/
theorem predict_503_of_no_model (st : ServerState) (h : st.MODEL = none) (body : Json) :
    (predict st body).fst = .error ⟨503, "Model not loaded"⟩ := by
  simp [predict, h]

/-- C2 (amended): when neither the default artifact path nor any fallback
candidate in the server's directory exists, the loader leaves the model
absent with a non-null error; `/model_info` then reports
`model_loaded = false` with that error, and `/predict` answers 503 for
every input that passes the framework's body validation — the
model-loaded check precedes the handler's own shape checks, so even the
empty array gets the 503.  Inputs the framework validation rejects
receive a 422 before the model check (see `c2_counterexample`). -/
theorem c2_amended_no_artifact_503 (w : World) (st : ServerState)
    (h0 : w.pathExists (MODEL_PATH w) = false)
    (h1 : ∀ f ∈ w.listdir, isModelExt f = true → w.pathExists (pjoin w.dirname f) = false) :
    (load_model w none st).fst.MODEL = none
    ∧ ((load_model w none st).fst.LAST_LOAD_ERROR).isSome = true
    ∧ (model_info (load_model w none st).fst).fst.model_loaded = false
    ∧ (model_info (load_model w none st).fst).fst.last_load_error
        = (load_model w none st).fst.LAST_LOAD_ERROR
    ∧ ∀ body rows, validateRows body = .ok rows →
        (predictRoute (load_model w none st).fst body).fst
          = .error ⟨503, "Model not loaded"⟩ := by
  have hpath : w.pathExists (resolvePath w none) = false := by
    cases hfind : w.listdir.find? isModelExt with
    | none => simp [resolvePath, hfind, h0]
    | some f =>
      have hpf : w.pathExists (pjoin w.dirname f) = false :=
        h1 f (List.mem_of_find?_eq_some hfind) (List.find?_some hfind)
      simpa [resolvePath, hfind, h0] using hpf
  have hload : load_model w none st
      = ({ MODEL := none,
           LAST_LOAD_ERROR := some ("Model file not found: " ++ resolvePath w none),
           MODEL_PATH_TRIED := some (resolvePath w none) }, none) := by
    simp only [load_model, hpath, Bool.not_false, if_true]
  refine ⟨?_, ?_, ?_, rfl, ?_⟩
  · rw [hload]
  · rw [hload]; rfl
  · rw [hload]; rfl
  · intro body rows hval
    simp only [predictRoute, hval]
    exact predict_503_of_no_model _ (by rw [hload]) (.arr rows)

/-- A world with no artifact anywhere: nothing exists, the directory is
empty, deserializers are never reached. -/
def bareWorld : World where
  dirname := "."
  pathExists := fun _ => false
  listdir := []
  joblibAvailable := true
  joblibLoad := fun _ => .error "unused"
  pickleLoad := fun _ => .error "unused"

/-- C2 counterexample: with no artifact anywhere the model handle is
absent, yet the route answers the non-array body `5` with the framework's
422, not the 503 the claim asserts for every input whatsoever — request
validation runs before the model-loaded check. -/
theorem c2_counterexample :
    (load_model bareWorld none initState).fst.MODEL = none
    ∧ (predictRoute (load_model bareWorld none initState).fst (.num 5)).fst
        = .error ⟨422, "request validation failed"⟩
    ∧ (422 : Nat) ≠ 503 :=
  ⟨rfl, rfl, by decide⟩

/-- Witness for C2 (amended) in a concrete world with no artifact,
evaluated on the validated (empty-array) body, which still gets the 503
rather than the handler's 400. -/
theorem c2_witness :
    (load_model bareWorld none initState).fst.MODEL = none
    ∧ ((load_model bareWorld none initState).fst.LAST_LOAD_ERROR).isSome = true
    ∧ (model_info (load_model bareWorld none initState).fst).fst.model_loaded = false
    ∧ (model_info (load_model bareWorld none initState).fst).fst.last_load_error
        = (load_model bareWorld none initState).fst.LAST_LOAD_ERROR
    ∧ (predictRoute (load_model bareWorld none initState).fst (.arr [])).fst
        = .error ⟨503, "Model not loaded"⟩ := by
  have h := c2_amended_no_artifact_503 bareWorld initState rfl
    (fun f hf _ => absurd hf (List.not_mem_nil f))
  exact ⟨h.1, h.2.1, h.2.2.1, h.2.2.2.1, h.2.2.2.2 (.arr []) [] rfl⟩

/-- C7: when the given (or default) path does not exist, the loader scans
the server's directory and substitutes the first file (in listing order)
whose name has a recognized model extension; the substituted path is what
the loader records as the attempted path and proceeds to load. -/
theorem c7_fallback_first_match (w : World) (pathArg : Option String)
    (st : ServerState) (f : String)
    (h0 : w.pathExists (pathArg.getD (MODEL_PATH w)) = false)
    (h1 : (w.listdir.filter isModelExt).head? = some f) :
    (load_model w pathArg st).fst.MODEL_PATH_TRIED = some (pjoin w.dirname f) := by
  have hfind : w.listdir.find? isModelExt = some f := by
    rw [find?_eq_filter_head?]; exact h1
  have hres : resolvePath w pathArg = pjoin w.dirname f := by
    simp [resolvePath, hfind, h0]
  simp only [load_model, hres]
  split
  · rfl
  · split <;> rfl

/-- A world where the default path is missing but the directory holds a
text file and two artifacts; nothing deserializes, which does not matter
for path selection. -/
def fallbackWorld : World where
  dirname := "."
  pathExists := fun p => p == "./m1.pkl" || p == "./m2.pkl"
  listdir := ["a.txt", "m1.pkl", "m2.pkl"]
  joblibAvailable := true
  joblibLoad := fun _ => .ok constHandle
  pickleLoad := fun _ => .error "unused"

/-- Witness for C7: with two candidate artifacts present, the earlier one
in listing order is the path recorded. -/
theorem c7_witness :
    (load_model fallbackWorld none initState).fst.MODEL_PATH_TRIED = some (pjoin "." "m1.pkl") :=
  c7_fallback_first_match fallbackWorld none initState "m1.pkl" rfl rfl

/-- C8 (amended): when deserialization succeeds the returned object is
stored as the process-wide model handle, but the last-error diagnostic is
left exactly as it was before the call — it is not cleared. -/
theorem c8_amended_success_keeps_error (w : World) (pathArg : Option String)
    (st : ServerState) (m : ModelHandle)
    (h : (load_model w pathArg st).snd = some m) :
    (load_model w pathArg st).fst.MODEL = some m
    ∧ (load_model w pathArg st).fst.LAST_LOAD_ERROR = st.LAST_LOAD_ERROR := by
  revert h
  simp only [load_model]
  generalize resolvePath w pathArg = p
  split
  · intro h
    exact absurd h (by simp)
  · split
    · intro h
      dsimp only at h ⊢
      injection h with h
      subst h
      exact ⟨rfl, rfl⟩
    · intro h
      exact absurd h (by simp)

/-- A world whose artifact always exists and deserializes to `constHandle`. -/
def okWorld : World where
  dirname := "."
  pathExists := fun _ => true
  listdir := []
  joblibAvailable := true
  joblibLoad := fun _ => .ok constHandle
  pickleLoad := fun _ => .error "unused"

/-- C8 counterexample: starting from a state carrying a recorded prior
failure, a successful load stores the model but leaves the last-error
diagnostic non-null, contradicting the claim that it is null after any
successful load. -/
theorem c8_counterexample :
    ((load_model okWorld (some "./model.pkl") ⟨none, some "earlier failure", none⟩).snd
      = some constHandle)
    ∧ ((load_model okWorld (some "./model.pkl") ⟨none, some "earlier failure", none⟩).fst.LAST_LOAD_ERROR
      = some "earlier failure") :=
  ⟨rfl, rfl⟩

/-- Witness for C8 (amended): the successful load in `okWorld` keeps the
pre-call diagnostic untouched. -/
theorem c8_witness :
    (load_model okWorld (some "./model.pkl") ⟨none, some "earlier failure", none⟩).fst.MODEL
      = some constHandle
    ∧ (load_model okWorld (some "./model.pkl") ⟨none, some "earlier failure", none⟩).fst.LAST_LOAD_ERROR
      = some "earlier failure" :=
  c8_amended_success_keeps_error okWorld (some "./model.pkl")
    ⟨none, some "earlier failure", none⟩ constHandle rfl

/-- C3 counterexample: with a loaded model, the body `[1]` — an array
containing a non-object element — is rejected by the framework's request
validation with a 422 before the handler runs, not the 400 the claim
asserts. -/
theorem c3_counterexample :
    (predictRoute ⟨some constHandle, none, none⟩ (.arr [.num 1])).fst
      = .error ⟨422, "request validation failed"⟩
    ∧ (422 : Nat) ≠ 400 :=
  ⟨rfl, by decide⟩

/-- C3 (amended): with a loaded model, only the empty array reaches the
handler's 400 naming the malformed shape; a non-array body, or an array
containing at least one non-object element, is rejected by the
framework's request validation with a 422 before the handler runs. -/
theorem c3_amended_shape_validation (st : ServerState) (M : ModelHandle) (body : Json)
    (hM : st.MODEL = some M) :
    ((predictRoute st (.arr [])).fst
        = .error ⟨400, "Request body must be a non-empty JSON array of objects"⟩)
    ∧ ((∀ l, body ≠ .arr l) →
        (predictRoute st body).fst = .error ⟨422, "request validation failed"⟩)
    ∧ (∀ l j, j ∈ l → j.isObj = false →
        (predictRoute st (.arr l)).fst = .error ⟨422, "request validation failed"⟩) := by
  refine ⟨?_, ?_, ?_⟩
  · simp [predictRoute, validateRows, predict, hM]
  · intro hna
    cases body with
    | arr l => exact absurd rfl (hna l)
    | num q => rfl
    | str s => rfl
    | bool b => rfl
    | null => rfl
    | obj fs => rfl
  · intro l j hj hno
    have hfalse : l.all Json.isObj = false := by
      cases h : l.all Json.isObj
      · rfl
      · rw [List.all_eq_true] at h
        rw [h j hj] at hno
        exact Bool.noConfusion hno
    simp [predictRoute, validateRows, hfalse]

/-- Witness for C3 (amended) on the empty array, the non-array body `5`
and the array `["x"]` with a non-object element. -/
theorem c3_witness :
    ((predictRoute ⟨some constHandle, none, none⟩ (.arr [])).fst
        = .error ⟨400, "Request body must be a non-empty JSON array of objects"⟩)
    ∧ ((predictRoute ⟨some constHandle, none, none⟩ (.num 5)).fst
        = .error ⟨422, "request validation failed"⟩)
    ∧ ((predictRoute ⟨some constHandle, none, none⟩ (.arr [.str "x"])).fst
        = .error ⟨422, "request validation failed"⟩) :=
  ⟨(c3_amended_shape_validation ⟨some constHandle, none, none⟩ constHandle (.num 5) rfl).1,
   (c3_amended_shape_validation ⟨some constHandle, none, none⟩ constHandle (.num 5) rfl).2.1
      (fun _ h => Json.noConfusion h),
   (c3_amended_shape_validation ⟨some constHandle, none, none⟩ constHandle (.num 5) rfl).2.2
      [.str "x"] (.str "x") (List.mem_cons_self _ _) rfl⟩

/-- A model that rejects the labeled DataFrame but predicts from the raw
values, and whose probability output differs between the two
representations, making the table used for probabilities observable. -/
def rawOnlyHandle : ModelHandle where
  predict := fun t =>
    match t with
    | .labeled _ => .error "X does not have valid feature names"
    | .raw _ => .ok [.py (.num 1)]
  hasProba := true
  predict_proba := fun t =>
    match t with
    | .labeled _ => .ok [[.num 9]]
    | .raw _ => .ok [[.num 2, .num 3]]

/-- C5 counterexample: the direct predict on the labeled table fails and
only the value-only retry succeeds, yet the returned confidence is 9 —
the row maximum of `predict_proba` on the labeled table — not the 3 the
raw-values table would give, so probabilities are not computed from the
table used for the successful prediction call. -/
theorem c5_counterexample :
    (predict ⟨some rawOnlyHandle, none, none⟩ (.arr [.obj [("a", .num 1)]])).fst
      = .ok [{ prediction := .num 1, confidence := .val 9 }]
    ∧ ConfField.val 9 ≠ ConfField.val 3 :=
  ⟨rfl, by decide⟩

/-- C5 (amended): the probability call is always made on the labeled
DataFrame: even when predictions came from the value-only retry, the
confidences in the response are the row maxima of `predict_proba` applied
to the labeled table. -/
theorem c5_amended_proba_on_labeled (st : ServerState) (M : ModelHandle)
    (rows : List Json) (df : Table) (e1 : String) (preds : List PredVal)
    (probs : List (List Json)) (cs : List Json)
    (hM : st.MODEL = some M) (hne : rows ≠ [])
    (hdf : pdDataFrame rows = .ok df)
    (h1 : M.predict (.labeled df) = .error e1)
    (h2 : M.predict (.raw df.values) = .ok preds)
    (hp : M.hasProba = true)
    (hpp : M.predict_proba (.labeled df) = .ok probs)
    (hmax : maxAxis1 probs = .ok cs) :
    ∃ out, (predict st (.arr rows)).fst = .ok out ∧
      ∀ i c q, cs.get? i = some c → pyFloat c = some q →
        ∀ e, out.get? i = some e → e.confidence = .val q := by
  have hlen0 : ¬ rows.length = 0 := by simpa [List.length_eq_zero] using hne
  have hconf : computeConfidences M df = some cs := by
    simp [computeConfidences, hp, hpp, hmax]
  refine ⟨buildEntries (some cs) 0 preds, ?_, ?_⟩
  · simp only [predict, hM]
    rw [if_neg hlen0]
    simp only [predictBody, hdf, runPredict, h1, h2, hconf]
  · intro i c q hc hq e he
    rw [buildEntries_get?] at he
    cases hp2 : preds.get? i with
    | none => rw [hp2] at he; simp at he
    | some p =>
      rw [hp2] at he
      simp only [Option.map_some'] at he
      injection he with he
      subst he
      simp only [mkEntry, Nat.zero_add, hc, hq]

/-- Witness for C5 (amended): on `rawOnlyHandle` the single confidence is
9, from the labeled table's probabilities. -/
theorem c5_witness :
    ∃ out, (predict ⟨some rawOnlyHandle, none, none⟩ (.arr [.obj [("a", .num 1)]])).fst
        = .ok out ∧
      ∀ i c q, ([Json.num 9].get? i) = some c → pyFloat c = some q →
        ∀ e, out.get? i = some e → e.confidence = .val q :=
  c5_amended_proba_on_labeled ⟨some rawOnlyHandle, none, none⟩ rawOnlyHandle
    [.obj [("a", .num 1)]] ⟨["a"], [[.num 1]]⟩ "X does not have valid feature names"
    [.py (.num 1)] [[.num 9]] [.num 9]
    rfl (List.cons_ne_nil _ _) rfl rfl rfl rfl rfl rfl

/-- C6: confidence computation never fails a request whose prediction
succeeded.  If the probability call raises, every entry simply omits the
confidence field and the predictions are still returned; if it succeeds,
a row whose confidence value `float()` rejects gets an explicit null
while every other row keeps its coerced value. -/
theorem c6_confidence_never_fails (st : ServerState) (M : ModelHandle)
    (rows : List Json) (df : Table) (preds : List PredVal)
    (hM : st.MODEL = some M) (hne : rows ≠ [])
    (hdf : pdDataFrame rows = .ok df)
    (hpred : runPredict M df = .ok preds) :
    (∀ err, M.hasProba = true → M.predict_proba (.labeled df) = .error err →
      ∃ out, (predict st (.arr rows)).fst = .ok out
        ∧ (∀ i, (out.get? i).map Entry.prediction = (preds.get? i).map PredVal.item)
        ∧ ∀ i e, out.get? i = some e → e.confidence = .absent)
    ∧ (∀ probs cs, M.hasProba = true → M.predict_proba (.labeled df) = .ok probs →
        maxAxis1 probs = .ok cs →
        ∃ out, (predict st (.arr rows)).fst = .ok out
          ∧ (∀ i, (out.get? i).map Entry.prediction = (preds.get? i).map PredVal.item)
          ∧ ∀ i c e, cs.get? i = some c → out.get? i = some e →
              (pyFloat c = none → e.confidence = .null)
              ∧ ∀ q, pyFloat c = some q → e.confidence = .val q) := by
  have hlen0 : ¬ rows.length = 0 := by simpa [List.length_eq_zero] using hne
  have hmain : (predict st (.arr rows)).fst
      = .ok (buildEntries (computeConfidences M df) 0 preds) := by
    simp only [predict, hM]
    rw [if_neg hlen0]
    simp only [predictBody, hdf, hpred]
  constructor
  · intro err hp herr
    have hconf : computeConfidences M df = none := by
      simp [computeConfidences, hp, herr]
    rw [hconf] at hmain
    refine ⟨_, hmain, ?_, ?_⟩
    · intro i
      rw [buildEntries_get?]
      cases preds.get? i <;> simp [mkEntry]
    · intro i e he
      rw [buildEntries_get?] at he
      cases hp2 : preds.get? i with
      | none => rw [hp2] at he; simp at he
      | some p =>
        rw [hp2] at he
        simp only [Option.map_some'] at he
        injection he with he
        subst he
        rfl
  · intro probs cs hp hpp hmax
    have hconf : computeConfidences M df = some cs := by
      simp [computeConfidences, hp, hpp, hmax]
    rw [hconf] at hmain
    refine ⟨_, hmain, ?_, ?_⟩
    · intro i
      rw [buildEntries_get?]
      cases preds.get? i <;> simp [mkEntry]
    · intro i c e hc he
      rw [buildEntries_get?] at he
      cases hp2 : preds.get? i with
      | none => rw [hp2] at he; simp at he
      | some p =>
        rw [hp2] at he
        simp only [Option.map_some'] at he
        injection he with he
        subst he
        constructor
        · intro hqn
          simp only [mkEntry, Nat.zero_add, hc, hqn]
        · intro q hq
          simp only [mkEntry, Nat.zero_add, hc, hq]

/-- A model with a probability capability that raises. -/
def errProbaHandle : ModelHandle where
  predict := fun _ => .ok [.py (.str "up")]
  hasProba := true
  predict_proba := fun _ => .error "proba boom"

/-- A model whose probability matrix yields one confidence `float()`
rejects (a `None`) and one it accepts. -/
def nullConfHandle : ModelHandle where
  predict := fun _ => .ok [.py (.num 0), .py (.num 1)]
  hasProba := true
  predict_proba := fun _ => .ok [[.null], [.num 7]]

/-- Witness for C6: a raising probability call leaves all entries without
the field, and a `None` confidence nulls only its own row. -/
theorem c6_witness :
    (∃ out, (predict ⟨some errProbaHandle, none, none⟩ (.arr [.obj [("a", .num 1)]])).fst
        = .ok out
      ∧ (∀ i, (out.get? i).map Entry.prediction
          = ([PredVal.py (.str "up")].get? i).map PredVal.item)
      ∧ ∀ i e, out.get? i = some e → e.confidence = .absent)
    ∧ (∃ out,
        (predict ⟨some nullConfHandle, none, none⟩
          (.arr [.obj [("a", .num 1)], .obj [("a", .num 2)]])).fst = .ok out
      ∧ (∀ i, (out.get? i).map Entry.prediction
          = ([PredVal.py (.num 0), PredVal.py (.num 1)].get? i).map PredVal.item)
      ∧ ∀ i c e, ([Json.null, Json.num 7].get? i) = some c → out.get? i = some e →
          (pyFloat c = none → e.confidence = .null)
          ∧ ∀ q, pyFloat c = some q → e.confidence = .val q) :=
  ⟨(c6_confidence_never_fails ⟨some errProbaHandle, none, none⟩ errProbaHandle
      [.obj [("a", .num 1)]] ⟨["a"], [[.num 1]]⟩ [.py (.str "up")]
      rfl (List.cons_ne_nil _ _) rfl rfl).1 "proba boom" rfl rfl,
   (c6_confidence_never_fails ⟨some nullConfHandle, none, none⟩ nullConfHandle
      [.obj [("a", .num 1)], .obj [("a", .num 2)]] ⟨["a"], [[.num 1], [.num 2]]⟩
      [.py (.num 0), .py (.num 1)]
      rfl (List.cons_ne_nil _ _) rfl rfl).2 [[.null], [.num 7]] [.null, .num 7] rfl rfl rfl⟩

/-- C10: when the computed confidence sequence is shorter than the
prediction sequence, the request still succeeds with every prediction
intact, and each entry whose index falls beyond the confidence sequence
gets a null confidence (the out-of-range access is caught per row). -/
theorem c10_short_confidences_null (st : ServerState) (M : ModelHandle)
    (rows : List Json) (df : Table) (preds : List PredVal)
    (probs : List (List Json)) (cs : List Json)
    (hM : st.MODEL = some M) (hne : rows ≠ [])
    (hdf : pdDataFrame rows = .ok df)
    (hpred : runPredict M df = .ok preds)
    (hp : M.hasProba = true)
    (hpp : M.predict_proba (.labeled df) = .ok probs)
    (hmax : maxAxis1 probs = .ok cs)
    (hshort : cs.length < preds.length) :
    ∃ out, (predict st (.arr rows)).fst = .ok out
      ∧ out.length = preds.length
      ∧ cs.length < out.length
      ∧ (∀ i, (out.get? i).map Entry.prediction = (preds.get? i).map PredVal.item)
      ∧ ∀ i e, cs.length ≤ i → out.get? i = some e → e.confidence = .null := by
  have hlen0 : ¬ rows.length = 0 := by simpa [List.length_eq_zero] using hne
  have hconf : computeConfidences M df = some cs := by
    simp [computeConfidences, hp, hpp, hmax]
  refine ⟨buildEntries (some cs) 0 preds, ?_, ?_, ?_, ?_, ?_⟩
  · simp only [predict, hM]
    rw [if_neg hlen0]
    simp only [predictBody, hdf, hpred, hconf]
  · rw [buildEntries_length]
  · rw [buildEntries_length]; exact hshort
  · intro i
    rw [buildEntries_get?]
    cases preds.get? i <;> simp [mkEntry]
  · intro i e hi he
    rw [buildEntries_get?] at he
    cases hp2 : preds.get? i with
    | none => rw [hp2] at he; simp at he
    | some p =>
      rw [hp2] at he
      simp only [Option.map_some'] at he
      injection he with he
      subst he
      have hcs : cs.get? i = none := List.get?_eq_none.mpr hi
      simp only [mkEntry, Nat.zero_add, hcs]

/-- A model predicting two labels whose probability matrix has only one
row, so the confidence list is shorter than the prediction list. -/
def shortProbaHandle : ModelHandle where
  predict := fun _ => .ok [.py (.num 0), .py (.num 1)]
  hasProba := true
  predict_proba := fun _ => .ok [[.num 5]]

/-- Witness for C10 with two predictions and a single confidence. -/
theorem c10_witness :
    ∃ out,
      (predict ⟨some shortProbaHandle, none, none⟩
        (.arr [.obj [("a", .num 1)], .obj [("a", .num 2)]])).fst = .ok out
      ∧ out.length = 2
      ∧ 1 < out.length
      ∧ (∀ i, (out.get? i).map Entry.prediction
          = ([PredVal.py (.num 0), PredVal.py (.num 1)].get? i).map PredVal.item)
      ∧ ∀ i e, 1 ≤ i → out.get? i = some e → e.confidence = .null :=
  c10_short_confidences_null ⟨some shortProbaHandle, none, none⟩ shortProbaHandle
    [.obj [("a", .num 1)], .obj [("a", .num 2)]] ⟨["a"], [[.num 1], [.num 2]]⟩
    [.py (.num 0), .py (.num 1)] [[.num 5]] [.num 5]
    rfl (List.cons_ne_nil _ _) rfl rfl rfl rfl rfl (by decide)

end GestureServer
